import Mathlib

/-!
Shallow embedding of the `ESP_CAN` bit-banging CAN library
(`src/unnamed/part_000` = ESP_CAN.h, `src/unnamed/part_001` = ESP_CAN.cpp,
the "feature-complete" variant the specification describes).

Modelling conventions:
* A GPIO line level is a `Bool`: `true` = HIGH = recessive, `false` = LOW =
  dominant, matching `digitalWrite(_txPin, bit ? HIGH : LOW)` and
  `digitalRead`.
* `uint8_t` counters (`tec`, `rec`) are `Nat` with an explicit `% 256` where
  the C++ addition can wrap; `uint16_t` CRC arithmetic is `Nat` with an
  explicit `% 65536` on the shift.
* The bus seen by the transmitter is an oracle `rx : Nat → Bool` giving the
  sampled RX level at the end of each emitted bit slot, numbered from the SOF
  slot = 0.  `sendBit` only reads RX when `checkArbitration && bit == HIGH`,
  and the ACK slot performs one read one slot after the CRC delimiter.
* The receiver's cadence gate (`micros() - _lastSampleTime < _bitTimeUs`)
  only decides *when* a sample is taken; a step of the model corresponds to a
  call of `readFrame` whose sample is due, i.e. one sample per bit period.
  Fields not initialised by the C++ constructor (`_rxBuffer`,
  `_consecutiveBits`, `_lastBit`) are 0-initialised in `initNode`; in
  `RX_STATE_IDLE` the code never reads them before writing them.
-/

namespace ESPCAN

/-- `enum CAN_State` from ESP_CAN.h. -/
inductive CAN_State where
  | errorActive
  | errorPassive
  | busOff
deriving DecidableEq, Repr

/-- `enum CAN_Read_Status` from ESP_CAN.h. -/
inductive CAN_Read_Status where
  | noMsg
  | msgOk
  | readError
deriving DecidableEq, Repr

/-- `enum RxState` from ESP_CAN.h. -/
inductive RxState where
  | idle
  | sof
  | frame
deriving DecidableEq, Repr

/-- `struct CAN_Frame`: `id` is `uint32_t` (only bits 10..0 are serialised),
`dlc` is `uint8_t`, `data` is `uint8_t[8]` modelled as a list read with
default 0. -/
structure CAN_Frame where
  id : Nat
  dlc : Nat
  data : List Nat
deriving DecidableEq, Repr

/-- The mutable state of one `ESP_CAN` object (counters, node state, and the
receiver working set; `_rxBitCount` is `rxBuffer.length`). -/
structure Node where
  tec : Nat
  recCounter : Nat
  state : CAN_State
  rxState : RxState
  rxBuffer : List Bool
  consecutiveBits : Nat
  lastBit : Bool
  bitTimeUs : Nat
  lastSampleTime : Nat
deriving DecidableEq, Repr

/-- The constructor `ESP_CAN::ESP_CAN(rxPin, txPin)`: sets `tec = 0`,
`rec = 0`, `state = CAN_STATE_ERROR_ACTIVE`, `_rxState = RX_STATE_IDLE`.
The remaining fields are uninitialised in C++ and 0-initialised here. -/
def initNode : Node where
  tec := 0
  recCounter := 0
  state := .errorActive
  rxState := .idle
  rxBuffer := []
  consecutiveBits := 0
  lastBit := false
  bitTimeUs := 0
  lastSampleTime := 0

/-- `ESP_CAN::begin(baudrate)`: configures the pins and the idle-recessive
line (not part of this state record), sets `_bitTimeUs = 1000000 / baudrate`
and `_lastSampleTime = micros()` (the `now` argument).  It touches no other
field. -/
def beginNode (s : Node) (baudrate now : Nat) : Node :=
  { s with bitTimeUs := 1000000 / baudrate, lastSampleTime := now }

/-- The state classification computed by `ESP_CAN::updateState()`:
Bus-Off iff `tec > 255 || rec > 255`, else Error-Passive iff
`tec > 127 || rec > 127`, else Error-Active. -/
def classify (tec rec : Nat) : CAN_State :=
  if 255 < tec ∨ 255 < rec then .busOff
  else if 127 < tec ∨ 127 < rec then .errorPassive
  else .errorActive

/-- `ESP_CAN::updateState()`: reassigns `state` from the counters by the
if-chain above. -/
def updateState (s : Node) : Node :=
  { s with state := classify s.tec s.recCounter }

/-- `ESP_CAN::handleError(isTxError, isRxError)`: `tec += 8` (a `uint8_t`
addition, hence mod 256) when `isTxError && state != BUS_OFF`; `rec++`
likewise; then `updateState()`. -/
def handleError (s : Node) (isTxError isRxError : Bool) : Node :=
  let s1 := if isTxError ∧ s.state ≠ .busOff then
    { s with tec := (s.tec + 8) % 256 } else s
  let s2 := if isRxError ∧ s1.state ≠ .busOff then
    { s1 with recCounter := (s1.recCounter + 1) % 256 } else s1
  updateState s2

/-- `ESP_CAN::handleSuccess(isTxSuccess, isRxSuccess)`: `tec--` when
`isTxSuccess && tec > 0`; `rec--` likewise; then `updateState()`. -/
def handleSuccess (s : Node) (isTxSuccess isRxSuccess : Bool) : Node :=
  let s1 := if isTxSuccess ∧ 0 < s.tec then { s with tec := s.tec - 1 } else s
  let s2 := if isRxSuccess ∧ 0 < s1.recCounter then { s1 with recCounter := s1.recCounter - 1 } else s1
  updateState s2

/-- One step of `ESP_CAN::calculateCRC`'s loop body on the `uint16_t`
register `crc_reg`:
`do_xor = ((crc_reg & 0x4000) >> 14) ^ bits[i]; crc_reg <<= 1;
if (do_xor) crc_reg ^= 0x4599;`.
`(crc_reg & 0x4000) >> 14` is `testBit crc_reg 14`; the `uint16_t` shift
wraps mod `0x10000`. -/
def crcStepCode (reg : Nat) (b : Bool) : Nat :=
  let doXor := xor (Nat.testBit reg 14) b
  let reg1 := (reg <<< 1) % 65536
  if doXor then reg1 ^^^ 0x4599 else reg1

/-- `ESP_CAN::calculateCRC(bits, len)`: fold `crcStepCode` from
`crc_reg = 0x0000` over the bits, then `return crc_reg & 0x7FFF`. -/
def calculateCRC (bits : List Bool) : Nat :=
  (bits.foldl crcStepCode 0) &&& 0x7FFF

/-- Modelled from the spec (§4.3), for comparison with `calculateCRC`:
per input bit `b`, `x := ((reg >> 14) & 1) XOR b;
reg := (reg << 1) & 0x7FFF; if x then reg := reg XOR 0x4599`, register
initialised to 0x0000, output masked with 0x7FFF. -/
def crcStepSpec (reg : Nat) (b : Bool) : Nat :=
  let x := xor (Nat.testBit reg 14) b
  let reg1 := (reg <<< 1) &&& 0x7FFF
  if x then reg1 ^^^ 0x4599 else reg1

/-- Modelled from the spec (§4.3): CAN CRC-15 of a logical bit sequence. -/
def crc15_spec (bits : List Bool) : Nat :=
  (bits.foldl crcStepSpec 0) &&& 0x7FFF

/-- The pre-stuff logical bit array `bitSequence` built at the top of
`ESP_CAN::sendFrame`: 11 identifier bits MSB-first (`(frame.id >> i) & 0x01`
for `i = 10 .. 0`), RTR = 0, IDE = 0, r0 = 0, 4 DLC bits MSB-first with
`dlc = frame.dlc > 8 ? 8 : frame.dlc`, then `8·dlc` data bits MSB-first per
byte.  (SOF is sent separately and is not part of this array.) -/
def bitSequence (f : CAN_Frame) : List Bool :=
  let dlc := if 8 < f.dlc then 8 else f.dlc
  ((List.range 11).map (fun k => Nat.testBit f.id (10 - k)))
    ++ [false, false, false]
    ++ ((List.range 4).map (fun k => Nat.testBit dlc (3 - k)))
    ++ ((List.range dlc).map (fun i =>
          (List.range 8).map (fun j => Nat.testBit (f.data.getD i 0) (7 - j)))).flatten

/-- Result of `ESP_CAN::sendFrame`: the node after the call, the returned
`bool`, and the sequence of line levels driven on the wire (one entry per
bit slot, the ACK slot contributing the level the released bus takes). -/
structure SendResult where
  node : Node
  ok : Bool
  wire : List Bool
deriving DecidableEq, Repr

/-- The main `for (i = 0; i < bitIndex; i++)` loop of `ESP_CAN::sendFrame`:
for each logical bit, update `(consecutiveBits, lastBit)`, then
`sendBit(bit, true)`; if `consecutiveBits == 5`, `sendBit(!lastBit, true)`
and reset the run to 0 with `lastBit` flipped.  `sendBit(b, true)` fails
exactly when `b == HIGH` and the RX sample of that slot reads LOW
(arbitration lost; `state == BUS_OFF` is impossible inside the call).
Returns `none` paired with the wire emitted so far on arbitration loss,
otherwise `some (consecutiveBits, lastBit, nextPos)` and the wire. -/
def txMain (rx : Nat → Bool) :
    List Bool → Nat → Bool → Nat → Option (Nat × Bool × Nat) × List Bool
  | [], consec, last, pos => (some (consec, last, pos), [])
  | b :: rest, consec, last, pos =>
    let consec1 := if b = last then consec + 1 else 1
    if b = true ∧ rx pos = false then (none, [b])
    else if consec1 = 5 then
      if (!b) = true ∧ rx (pos + 1) = false then (none, [b, !b])
      else
        let r := txMain rx rest 0 (!b) (pos + 2)
        (r.1, b :: (!b) :: r.2)
    else
      let r := txMain rx rest consec1 b (pos + 1)
      (r.1, b :: r.2)

/-- The `for (i = 14; i >= 0; i--)` CRC loop of `ESP_CAN::sendFrame`: same
run bookkeeping, but `sendBit(bit, false)` never fails once past the entry
Bus-Off guard, so only the stuffed wire is produced. -/
def txCrc : List Bool → Nat → Bool → List Bool
  | [], _, _ => []
  | b :: rest, consec, last =>
    let consec1 := if b = last then consec + 1 else 1
    if consec1 = 5 then b :: (!b) :: txCrc rest 0 (!b)
    else b :: txCrc rest consec1 b

/-- The 15 CRC bits appended MSB-first: `(crc >> i) & 0x01` for
`i = 14 .. 0`. -/
def crcBits (crc : Nat) : List Bool :=
  (List.range 15).map (fun k => Nat.testBit crc (14 - k))

/-- `ESP_CAN::sendFrame(frame)`.  Control flow of the source:
1. `state == BUS_OFF` ⇒ return false (counters untouched, nothing driven);
2. build `bitSequence`, compute `calculateCRC` over it;
3. SOF = `sendBit(LOW, false)` (cannot fail after the guard);
4. main loop with stuffing and arbitration (`txMain`, RX slots numbered
   from 1); arbitration loss ⇒ `handleError(true, false)`, return false;
5. CRC field with stuffing, no arbitration (`txCrc`);
6. CRC delimiter `sendBit(HIGH, false)`;
7. ACK slot: TX released for one bit time, RX sampled; recessive ⇒
   `handleError(true, false)`, return false;
8. ACK delimiter + 7 EOF recessive bits, `handleSuccess(true, false)`,
   return true.

The local `uint16_t crc` of the source is the shared subterm `txCrcWire`:
the stuffed wire of the CRC field of `frame`, continuing the run state
`(consec, last)` left by the main loop. -/
def txCrcWire (f : CAN_Frame) (consec : Nat) (last : Bool) : List Bool :=
  txCrc (crcBits (calculateCRC (bitSequence f))) consec last

/-- `ESP_CAN::sendFrame(frame)`, assembled from the pieces above; the ACK
slot is the RX sample one slot after the CRC delimiter. -/
def sendFrame (s : Node) (f : CAN_Frame) (rx : Nat → Bool) : SendResult :=
  if s.state = .busOff then ⟨s, false, []⟩
  else
    match txMain rx (bitSequence f) 0 false 1 with
    | (none, w) => ⟨handleError s true false, false, false :: w⟩
    | (some (consec, last, pos), w) =>
      if rx (pos + (txCrcWire f consec last).length + 1) = false then
        ⟨handleSuccess s true false, true,
          false :: w ++ txCrcWire f consec last ++ [true]
            ++ [rx (pos + (txCrcWire f consec last).length + 1)] ++ [true]
            ++ List.replicate 7 true⟩
      else
        ⟨handleError s true false, false,
          false :: w ++ txCrcWire f consec last ++ [true]
            ++ [rx (pos + (txCrcWire f consec last).length + 1)]⟩

/-- Result of one due-sample call of `ESP_CAN::readFrame`: the node after
the call, the caller's frame after the call (the C++ function writes through
the `CAN_Frame &frame` reference), the returned status, and whether the call
drove a dominant ACK bit on TX (`digitalWrite(_txPin, LOW)` in the CRC-match
branch). -/
structure ReadResult where
  node : Node
  frame : CAN_Frame
  status : CAN_Read_Status
  ackDriven : Bool
deriving DecidableEq, Repr

/-- `(_rxBuffer[k])` read as 0/1 (out-of-range reads default to 0; the C++
array is only read below `_rxBitCount` when the decoder runs). -/
def bufBit (buf : List Bool) (k : Nat) : Nat := if buf.getD k false then 1 else 0

/-- `frame.id`: `for i in 0..10: frame.id = (frame.id << 1) | buf[bitIndex++]`. -/
def decodeId (buf : List Bool) : Nat :=
  (List.range 11).foldl (fun a k => a * 2 + bufBit buf k) 0

/-- `frame.dlc` before clamping: 4 bits after skipping RTR, IDE, r0
(indices 14..17). -/
def decodeDlcRaw (buf : List Bool) : Nat :=
  (List.range 4).foldl (fun a k => a * 2 + bufBit buf (14 + k)) 0

/-- `frame.dlc` after `if (frame.dlc > 8) frame.dlc = 8`. -/
def decodeDlc (buf : List Bool) : Nat :=
  if 8 < decodeDlcRaw buf then 8 else decodeDlcRaw buf

/-- The decoded data bytes, MSB-first, indices 18 .. 18+8·dlc-1. -/
def decodeData (buf : List Bool) : List Nat :=
  (List.range (decodeDlc buf)).map (fun i =>
    (List.range 8).foldl (fun a j => a * 2 + bufBit buf (18 + 8 * i + j)) 0)

/-- `received_crc`: the 15 bits after the data field. -/
def decodeReceivedCrc (buf : List Bool) : Nat :=
  (List.range 15).foldl (fun a k => a * 2 + bufBit buf (18 + 8 * decodeDlc buf + k)) 0

/-- The caller's frame after the decoder has written through the reference:
`id`, `dlc` and the first `dlc` data bytes are decoded; data bytes beyond
`dlc` keep the caller's previous values. -/
def decodedFrame (buf : List Bool) (f : CAN_Frame) : CAN_Frame :=
  ⟨decodeId buf, decodeDlc buf, decodeData buf ++ f.data.drop (decodeDlc buf)⟩

/-- The frame-decoding block of `ESP_CAN::readFrame`, entered when the EOF
test fires: decode the buffer, recompute the CRC over the buffer prefix
(`bitIndex - 15` bits, i.e. `18 + 8*dlc`), return to `RX_STATE_IDLE`; on
match drive the ACK (`ackDriven`), `handleSuccess(false, true)` and
`CAN_READ_MSG_OK`, else `handleError(false, true)` and `CAN_READ_ERROR`. -/
def decodeFrame (s : Node) (f : CAN_Frame) : ReadResult :=
  if calculateCRC (s.rxBuffer.take (18 + 8 * decodeDlc s.rxBuffer))
      = decodeReceivedCrc s.rxBuffer then
    ⟨handleSuccess { s with rxState := RxState.idle } false true,
      decodedFrame s.rxBuffer f, .msgOk, true⟩
  else
    ⟨handleError { s with rxState := RxState.idle } false true,
      decodedFrame s.rxBuffer f, .readError, false⟩

/-- `if (currentBit == _lastBit) _consecutiveBits++; else _consecutiveBits = 1;`. -/
def nextRun (s : Node) (b : Bool) : Nat :=
  if b = s.lastBit then s.consecutiveBits + 1 else 1

/-- `_lastBit = currentBit; _rxBuffer[_rxBitCount++] = currentBit;` together
with the already-updated run counter. -/
def storeBit (s : Node) (b : Bool) : Node :=
  { s with consecutiveBits := nextRun s b, lastBit := b,
           rxBuffer := s.rxBuffer ++ [b] }

/-- The shared `RX_STATE_FRAME` body of `ESP_CAN::readFrame` (also reached
from `RX_STATE_SOF` by fall-through): update the run counter against
`_lastBit`; if it reaches 5, reset it to 0, set `_lastBit = !currentBit`
and return `CAN_READ_NO_MSG` without storing the sample; otherwise store the
sample and, when `currentBit == HIGH && _consecutiveBits >= 7`, decode. -/
def frameStep (s : Node) (f : CAN_Frame) (b : Bool) : ReadResult :=
  if nextRun s b = 5 then
    ⟨{ s with consecutiveBits := 0, lastBit := !b }, f, .noMsg, false⟩
  else
    if b = true ∧ 7 ≤ nextRun s b then decodeFrame (storeBit s b) f
    else ⟨storeBit s b, f, .noMsg, false⟩

/-- One due-sample call of `ESP_CAN::readFrame(frame)` processing the
sampled level `b`: Bus-Off ⇒ `CAN_READ_NO_MSG`; in `RX_STATE_IDLE` a LOW
sample is a potential SOF (reset buffer, run = 1, `_lastBit = LOW`);
`RX_STATE_SOF` switches to `RX_STATE_FRAME` and falls through to the frame
body. -/
def readFrameStep (s : Node) (f : CAN_Frame) (b : Bool) : ReadResult :=
  if s.state = .busOff then ⟨s, f, .noMsg, false⟩
  else
    match s.rxState with
    | .idle =>
      if b = false then
        ⟨{ s with rxState := .sof, rxBuffer := [], consecutiveBits := 1,
                  lastBit := false }, f, .noMsg, false⟩
      else ⟨s, f, .noMsg, false⟩
    | .sof => frameStep { s with rxState := .frame } f b
    | .frame => frameStep s f b

/-- Result of a run of consecutive due-sample `readFrame` calls. -/
structure RunResult where
  node : Node
  frame : CAN_Frame
  outs : List (CAN_Read_Status × Bool)
deriving DecidableEq, Repr

/-- Feed a list of sampled line levels to `readFrame`, one call per sample,
collecting each call's `(status, ackDriven)`. -/
def runReader (s : Node) (f : CAN_Frame) : List Bool → RunResult
  | [] => ⟨s, f, []⟩
  | b :: rest =>
    let r := readFrameStep s f b
    let rr := runReader r.node r.frame rest
    ⟨rr.node, rr.frame, (r.status, r.ackDriven) :: rr.outs⟩

/-- A bus that is recessive except in slot `n`, where a listener pulls it
dominant: the environment of a transmitter whose frame is acknowledged in
its ACK slot (slot `n`) and that never loses arbitration. -/
def rxAckAt (n : Nat) : Nat → Bool := fun p => p != n

/-- A bus held recessive throughout: no competing transmitter, and no
listener drives the ACK slot. -/
def rxAllRecessive : Nat → Bool := fun _ => true

/-- A bus held dominant throughout (a competing higher-priority
transmitter occupying every slot). -/
def rxAllDominant : Nat → Bool := fun _ => false

/-- The demo frame of the repository's example sketches:
`id = 0x123, dlc = 4, data = DE AD BE EF`. -/
def testFrame : CAN_Frame := ⟨0x123, 4, [0xDE, 0xAD, 0xBE, 0xEF]⟩

/-- One `sendFrame` call of `testFrame` on a bus where nobody acknowledges:
the transmission that fails for lack of an ACK. -/
def noAckSendStep (s : Node) : Node := (sendFrame s testFrame rxAllRecessive).node

/- ------------------------------------------------------------------ -/
/- Helper lemmas                                                       -/
/- ------------------------------------------------------------------ -/

/-- `updateState` establishes the classification invariant. -/
theorem updateState_inv (s : Node) :
    (updateState s).state = classify (updateState s).tec (updateState s).recCounter := rfl

/-- `handleError` ends in `updateState`, so it establishes the invariant. -/
theorem handleError_inv (s : Node) (a b : Bool) :
    (handleError s a b).state
      = classify (handleError s a b).tec (handleError s a b).recCounter := rfl

/-- `handleSuccess` ends in `updateState`, so it establishes the
invariant. -/
theorem handleSuccess_inv (s : Node) (a b : Bool) :
    (handleSuccess s a b).state
      = classify (handleSuccess s a b).tec (handleSuccess s a b).recCounter := rfl

/-- The node `sendFrame` leaves behind is the entry node (Bus-Off guard),
`handleError(true, false)` or `handleSuccess(true, false)` of it. -/
theorem sendFrame_node_cases (s : Node) (f : CAN_Frame) (rx : Nat → Bool) :
    (sendFrame s f rx).node = s ∨
    (sendFrame s f rx).node = handleError s true false ∨
    (sendFrame s f rx).node = handleSuccess s true false := by
  unfold sendFrame
  split
  · exact Or.inl rfl
  · split
    · exact Or.inr (Or.inl rfl)
    · split
      · exact Or.inr (Or.inr rfl)
      · exact Or.inr (Or.inl rfl)

/-- `frameStep` preserves the classification invariant. -/
theorem frameStep_inv (s : Node) (f : CAN_Frame) (b : Bool)
    (h : s.state = classify s.tec s.recCounter) :
    ((frameStep s f b).node).state
      = classify ((frameStep s f b).node).tec ((frameStep s f b).node).recCounter := by
  unfold frameStep
  split
  · exact h
  · split
    · unfold decodeFrame
      split
      · exact handleSuccess_inv _ _ _
      · exact handleError_inv _ _ _
    · exact h

/-- `readFrameStep` preserves the classification invariant. -/
theorem readFrameStep_inv (s : Node) (f : CAN_Frame) (b : Bool)
    (h : s.state = classify s.tec s.recCounter) :
    ((readFrameStep s f b).node).state
      = classify ((readFrameStep s f b).node).tec
          ((readFrameStep s f b).node).recCounter := by
  unfold readFrameStep
  split
  · exact h
  · split
    · split
      · exact h
      · exact h
    · exact frameStep_inv _ _ _ h
    · exact frameStep_inv _ _ _ h

/-- Receiver reachability invariant: in `RX_STATE_IDLE` the run counter is
about to be re-armed; elsewhere it is at most 4 (it is reset to 0 the moment
it reaches 5). -/
def RxInv (s : Node) : Prop := s.rxState = RxState.idle ∨ s.consecutiveBits ≤ 4

/-- Core of the receiver analysis: from any node satisfying `RxInv`, a
`readFrame` call returns `CAN_READ_NO_MSG`, drives no ACK, leaves the
caller's frame untouched, and preserves `RxInv` — the EOF test
`_consecutiveBits >= 7` can never fire because the destuffing branch resets
the counter at 5. -/
theorem readFrameStep_noMsg (s : Node) (f : CAN_Frame) (b : Bool) (h : RxInv s) :
    (readFrameStep s f b).status = CAN_Read_Status.noMsg ∧
    (readFrameStep s f b).ackDriven = false ∧
    (readFrameStep s f b).frame = f ∧
    RxInv (readFrameStep s f b).node := by
  have hframe : ∀ s' : Node, s'.consecutiveBits ≤ 4 →
      (frameStep s' f b).status = CAN_Read_Status.noMsg ∧
      (frameStep s' f b).ackDriven = false ∧
      (frameStep s' f b).frame = f ∧
      RxInv (frameStep s' f b).node := by
    intro s' h4
    unfold frameStep
    split
    · exact ⟨rfl, rfl, rfl, Or.inr (Nat.zero_le 4)⟩
    · rename_i hne
      have h5 : nextRun s' b ≤ 5 := by unfold nextRun; split <;> omega
      have hle : nextRun s' b ≤ 4 := by omega
      rw [if_neg (fun hc => by omega : ¬(b = true ∧ 7 ≤ nextRun s' b))]
      exact ⟨rfl, rfl, rfl, Or.inr hle⟩
  unfold readFrameStep
  split
  · exact ⟨rfl, rfl, rfl, h⟩
  · split
    · split
      · exact ⟨rfl, rfl, rfl, Or.inr (show (1:Nat) ≤ 4 by omega)⟩
      · exact ⟨rfl, rfl, rfl, h⟩
    · rename_i hsof
      rcases h with hidle | h4
      · rw [hsof] at hidle; exact absurd hidle (by simp)
      · exact hframe _ h4
    · rename_i hfr
      rcases h with hidle | h4
      · rw [hfr] at hidle; exact absurd hidle (by simp)
      · exact hframe _ h4

/-- Iterated form of `readFrameStep_noMsg` over a list of samples. -/
theorem runReader_noMsg (bits : List Bool) :
    ∀ (s : Node) (f : CAN_Frame), RxInv s →
      (runReader s f bits).outs
        = List.replicate bits.length (CAN_Read_Status.noMsg, false) ∧
      (runReader s f bits).frame = f ∧
      RxInv (runReader s f bits).node := by
  induction bits with
  | nil => exact fun s f h => ⟨rfl, rfl, h⟩
  | cons b rest ih =>
    intro s f h
    obtain ⟨hst, hack, hfr, hinv⟩ := readFrameStep_noMsg s f b h
    obtain ⟨ho, hf, hi⟩ := ih (readFrameStep s f b).node f hinv
    refine ⟨?_, ?_, ?_⟩
    · simp only [runReader, hfr, List.length_cons, List.replicate_succ]
      rw [ho, hst, hack]
    · simp only [runReader, hfr]
      exact hf
    · simp only [runReader, hfr]
      exact hi

/-- `a &&& 0x7FFF` is reduction mod `2^15`. -/
theorem and_mask15 (a : Nat) : a &&& 32767 = a % 32768 := by
  have h := Nat.and_pow_two_sub_one_eq_mod a 15
  norm_num at h
  exact h

/-- The `uint16_t` CRC step of the source and the 15-bit CRC step of the
spec agree modulo `2^15`: the source's register bit 15 is dead (never
tested, shifted out, and masked at return). -/
theorem crcStep_congr (rc rs : Nat) (b : Bool) (h : rc % 32768 = rs % 32768) :
    (crcStepCode rc b) % 32768 = (crcStepSpec rs b) % 32768 := by
  have h15 : (32768 : Nat) = 2 ^ 15 := by norm_num
  have e : ∀ a : Nat, Nat.testBit a 14 = Nat.testBit (a % 32768) 14 := by
    intro a
    rw [h15, Nat.testBit_mod_two_pow]
    simp
  have hb : Nat.testBit rc 14 = Nat.testBit rs 14 := by
    rw [e rc, e rs]
    exact congrArg (fun x => Nat.testBit x 14) h
  have hsh : ∀ a : Nat, a <<< 1 = a * 2 := fun a => by
    rw [Nat.shiftLeft_eq]
  cases hx : xor (Nat.testBit rs 14) b with
  | false =>
    simp only [crcStepCode, crcStepSpec, hb, hx, Bool.false_eq_true, if_false,
      and_mask15, hsh]
    omega
  | true =>
    simp only [crcStepCode, crcStepSpec, hb, hx, if_true]
    rw [← and_mask15 ((rc <<< 1 % 65536) ^^^ 17817), ← and_mask15 (((rs <<< 1) &&& 32767) ^^^ 17817),
        Nat.and_xor_distrib_right, Nat.and_xor_distrib_right]
    have hc : (17817 : Nat) &&& 32767 = 17817 := by decide
    rw [hc]
    have heq : ((rc <<< 1) % 65536) &&& 32767 = ((rs <<< 1) &&& 32767) &&& 32767 := by
      rw [and_mask15, and_mask15, and_mask15, hsh, hsh]
      omega
    rw [heq]

/-- Folding the two CRC steps from congruent registers stays congruent. -/
theorem crcFold_congr (l : List Bool) :
    ∀ rc rs : Nat, rc % 32768 = rs % 32768 →
      (l.foldl crcStepCode rc) % 32768 = (l.foldl crcStepSpec rs) % 32768 := by
  induction l with
  | nil => exact fun rc rs h => h
  | cons b rest ih =>
    intro rc rs h
    simp only [List.foldl_cons]
    exact ih _ _ (crcStep_congr rc rs b h)

/-- `ESP_CAN::calculateCRC` computes exactly the CRC-15 recurrence of the
spec. -/
theorem calculateCRC_eq_spec (l : List Bool) : calculateCRC l = crc15_spec l := by
  unfold calculateCRC crc15_spec
  rw [and_mask15, and_mask15]
  exact crcFold_congr l 0 0 rfl

/-- A leading SOF (dominant, 0) bit does not change the CRC-15 of a
sequence, because the register starts at 0. -/
theorem crc15_spec_cons_false (l : List Bool) :
    crc15_spec (false :: l) = crc15_spec l := by
  have h0 : crcStepSpec 0 false = 0 := by decide
  simp [crc15_spec, List.foldl_cons, h0]

/- ------------------------------------------------------------------ -/
/- Claim theorems                                                      -/
/- ------------------------------------------------------------------ -/

/-- C1: the claimed loopback round-trip (`readFrame` eventually returns
`CAN_READ_MSG_OK` when fed the wire bits of `sendFrame`) fails: from a
freshly constructed node, *every* finite sample stream — including the exact
wire of any `sendFrame` call — makes every `readFrame` call return
`CAN_READ_NO_MSG`, because the run counter is reset at 5 and the EOF test
`_consecutiveBits >= 7` can never fire. -/
theorem C1_readFrame_never_msgOk (bits : List Bool) (f : CAN_Frame) :
    (runReader initNode f bits).outs
      = List.replicate bits.length (CAN_Read_Status.noMsg, false) :=
  (runReader_noMsg bits initNode f (Or.inl rfl)).1

set_option maxRecDepth 8000 in
/-- C2: from a fresh node, 16 consecutive no-ACK transmissions raise TEC to
128 and the state to Error-Passive, as claimed; but after 32 such failures
the `uint8_t` TEC has wrapped (248 + 8 = 256 ≡ 0) and the state is back to
Error-Active, not TEC = 256 / Bus-Off as the claim states. -/
theorem C2_tec_wraps_instead_of_busOff :
    (noAckSendStep^[16] initNode).tec = 128 ∧
    (noAckSendStep^[16] initNode).state = CAN_State.errorPassive ∧
    (noAckSendStep^[32] initNode).tec = 0 ∧
    (noAckSendStep^[32] initNode).state = CAN_State.errorActive := by decide

set_option maxRecDepth 8000 in
/-- C3 counterexample: a `sendFrame` that aborts on arbitration loss (the
first identifier bit of id 0x7FF is recessive while the bus reads dominant,
so `txMain` returns `none`) does not leave `tec` untouched: it goes from 0
to 8. -/
theorem C3_counterexample :
    (txMain rxAllDominant (bitSequence ⟨0x7FF, 0, []⟩) 0 false 1).1 = none ∧
    (sendFrame initNode ⟨0x7FF, 0, []⟩ rxAllDominant).ok = false ∧
    initNode.tec = 0 ∧
    (sendFrame initNode ⟨0x7FF, 0, []⟩ rxAllDominant).node.tec = 8 := by decide

/-- A failed `sendFrame` entered outside Bus-Off always leaves
`handleError(true, false)` behind. -/
theorem sendFrame_false_node (s : Node) (f : CAN_Frame) (rx : Nat → Bool)
    (hs : ¬ s.state = CAN_State.busOff)
    (hfail : (sendFrame s f rx).ok = false) :
    (sendFrame s f rx).node = handleError s true false := by
  unfold sendFrame at hfail ⊢
  rw [if_neg hs] at hfail ⊢
  generalize txMain rx (bitSequence f) 0 false 1 = r at hfail ⊢
  rcases r with ⟨_ | ⟨consec, last, pos⟩, w⟩
  · rfl
  · dsimp only at hfail ⊢
    split at hfail
    · simp at hfail
    · rename_i hc
      rw [if_neg hc]

/-- C3 amended: whenever `sendFrame`, entered outside Bus-Off, returns
false — in particular when it aborts because it drove a recessive bit and
sampled the bus dominant — it adds 8 (mod 256) to `tec`, leaves `rec`
unchanged, and reclassifies the state; the counters are NOT left exactly as
they were. -/
theorem C3_send_failure_adds_8 (s : Node) (f : CAN_Frame) (rx : Nat → Bool)
    (hs : ¬ s.state = CAN_State.busOff)
    (hfail : (sendFrame s f rx).ok = false) :
    (sendFrame s f rx).node.tec = (s.tec + 8) % 256 ∧
    (sendFrame s f rx).node.recCounter = s.recCounter ∧
    (sendFrame s f rx).node.state = classify ((s.tec + 8) % 256) s.recCounter := by
  rw [sendFrame_false_node s f rx hs hfail]
  refine ⟨?_, ?_, ?_⟩ <;> simp [handleError, updateState, hs]

set_option maxRecDepth 8000 in
/-- Witness for `C3_send_failure_adds_8` at a concrete arbitration-loss
input. -/
theorem C3_send_failure_adds_8_witness :
    (¬ initNode.state = CAN_State.busOff) ∧
    ((sendFrame initNode ⟨0x7FF, 0, []⟩ rxAllDominant).ok = false) ∧
    (sendFrame initNode ⟨0x7FF, 0, []⟩ rxAllDominant).node.tec
      = (initNode.tec + 8) % 256 ∧
    (sendFrame initNode ⟨0x7FF, 0, []⟩ rxAllDominant).node.recCounter
      = initNode.recCounter ∧
    (sendFrame initNode ⟨0x7FF, 0, []⟩ rxAllDominant).node.state
      = classify ((initNode.tec + 8) % 256) initNode.recCounter :=
  ⟨by decide, by decide,
    (C3_send_failure_adds_8 initNode ⟨0x7FF, 0, []⟩ rxAllDominant
      (by decide) (by decide)).1,
    (C3_send_failure_adds_8 initNode ⟨0x7FF, 0, []⟩ rxAllDominant
      (by decide) (by decide)).2.1,
    (C3_send_failure_adds_8 initNode ⟨0x7FF, 0, []⟩ rxAllDominant
      (by decide) (by decide)).2.2⟩

set_option maxRecDepth 8000 in
/-- C4: the transmit stuffing invariant fails.  For the frame with
id = 0x000 (whose four identifier MSBs are all 0) and dlc = 0, a successful
`sendFrame` (acknowledged in its ACK slot, slot 41) emits a wire whose first
six bits — SOF plus five identifier bits, well inside the stuffable region —
are all dominant: the loop does not count SOF into the run, so the stuff bit
only comes after the sixth dominant bit instead of after the run of five
that begins at SOF. -/
theorem C4_wire_run_of_six :
    (sendFrame initNode ⟨0, 0, []⟩ (rxAckAt 41)).ok = true ∧
    (sendFrame initNode ⟨0, 0, []⟩ (rxAckAt 41)).wire.take 6
      = List.replicate 6 false := by decide

set_option maxRecDepth 8000 in
/-- C5: the destuffing rule is implemented off by one.  Feeding
SOF, then 1, then five 0s: when the run reaches five the receiver has
appended only four of the five run bits and it is the fifth sampled bit
itself that is dropped; the NEXT sample (the stuff bit, 1) IS appended. -/
theorem C5_destuff_drops_fifth_bit :
    (runReader initNode ⟨0, 0, []⟩
        [false, true, false, false, false, false, false]).node.rxBuffer
      = [true, false, false, false, false] ∧
    (runReader initNode ⟨0, 0, []⟩
        [false, true, false, false, false, false, false, true]).node.rxBuffer
      = [true, false, false, false, false, true] := by decide

set_option maxRecDepth 8000 in
/-- C6: the CRC the transmitter appends (`calculateCRC` over `bitSequence`,
serialised by `crcBits` inside `sendFrame`) equals the spec's CAN CRC-15
recurrence over the pre-stuff logical bits from SOF through the end of the
data field (the leading SOF = 0 bit leaves the zero-initialised register
unchanged); in particular, for id = 0x000 and dlc = 0 the appended CRC is
0x0000. -/
theorem C6_crc_field_is_can_crc15 :
    (∀ f : CAN_Frame, calculateCRC (bitSequence f)
        = crc15_spec (false :: bitSequence f)) ∧
    calculateCRC (bitSequence ⟨0, 0, []⟩) = 0 := by
  constructor
  · intro f
    rw [calculateCRC_eq_spec, crc15_spec_cons_false]
  · decide

/-- C7: the receiver never drives its dominant ACK bit at all — on any
finite sample stream from a fresh node, every `readFrame` call reports
`ackDriven = false`, because the CRC-match branch sits behind the
unreachable EOF test; a fortiori it never drives it during the ACK slot. -/
theorem C7_receiver_never_acks (bits : List Bool) (f : CAN_Frame) :
    ((runReader initNode f bits).outs).map Prod.snd
      = List.replicate bits.length false := by
  rw [(runReader_noMsg bits initNode f (Or.inl rfl)).1, List.map_replicate]

set_option maxRecDepth 8000 in
/-- C8 counterexample: after 25 no-ACK transmission failures the node has
tec = 200 and is Error-Passive; calling `begin(500000)` leaves tec at 200
(not 0) and the state Error-Passive (not Error-Active). -/
theorem C8_counterexample :
    (noAckSendStep^[25] initNode).tec = 200 ∧
    (noAckSendStep^[25] initNode).state = CAN_State.errorPassive ∧
    (beginNode (noAckSendStep^[25] initNode) 500000 0).tec = 200 ∧
    ¬ (beginNode (noAckSendStep^[25] initNode) 500000 0).tec = 0 ∧
    ¬ (beginNode (noAckSendStep^[25] initNode) 500000 0).state
        = CAN_State.errorActive := by decide

/-- C8 amended: `begin(baudrate)` computes `bitTimeUs = 1000000 / baudrate`
and arms the last-sample timestamp to now, but leaves `tec`, `rec` and
`state` exactly as they were; only construction initialises them to
(0, 0, Error-Active). -/
theorem C8_begin_sets_timing_only (s : Node) (baudrate now : Nat) :
    (beginNode s baudrate now).bitTimeUs = 1000000 / baudrate ∧
    (beginNode s baudrate now).lastSampleTime = now ∧
    (beginNode s baudrate now).tec = s.tec ∧
    (beginNode s baudrate now).recCounter = s.recCounter ∧
    (beginNode s baudrate now).state = s.state ∧
    initNode.tec = 0 ∧ initNode.recCounter = 0 ∧
    initNode.state = CAN_State.errorActive :=
  ⟨rfl, rfl, rfl, rfl, rfl, rfl, rfl, rfl⟩

/-- C9: after construction and after every `begin`, `sendFrame` or
`readFrame` call, the stored `state` equals the classification of the
stored counter pair `(tec, rec)`: Bus-Off iff a counter exceeds 255, else
Error-Passive iff one exceeds 127, else Error-Active. -/
theorem C9_state_is_classification :
    initNode.state = classify initNode.tec initNode.recCounter ∧
    (∀ (s : Node) (baudrate now : Nat),
      s.state = classify s.tec s.recCounter →
      (beginNode s baudrate now).state
        = classify (beginNode s baudrate now).tec
            (beginNode s baudrate now).recCounter) ∧
    (∀ (s : Node) (f : CAN_Frame) (rx : Nat → Bool),
      s.state = classify s.tec s.recCounter →
      (sendFrame s f rx).node.state
        = classify (sendFrame s f rx).node.tec
            (sendFrame s f rx).node.recCounter) ∧
    (∀ (s : Node) (f : CAN_Frame) (b : Bool),
      s.state = classify s.tec s.recCounter →
      (readFrameStep s f b).node.state
        = classify (readFrameStep s f b).node.tec
            (readFrameStep s f b).node.recCounter) := by
  refine ⟨by decide, fun s baudrate now h => h, ?_, fun s f b h => readFrameStep_inv s f b h⟩
  intro s f rx h
  rcases sendFrame_node_cases s f rx with h1 | h1 | h1 <;> rw [h1]
  · exact h
  · exact handleError_inv s true false
  · exact handleSuccess_inv s true false

set_option maxRecDepth 8000 in
/-- Witness for `C9_state_is_classification` at concrete inputs. -/
theorem C9_state_is_classification_witness :
    (initNode.state = classify initNode.tec initNode.recCounter) ∧
    (beginNode initNode 125000 0).state
      = classify (beginNode initNode 125000 0).tec
          (beginNode initNode 125000 0).recCounter ∧
    (sendFrame initNode testFrame rxAllRecessive).node.state
      = classify (sendFrame initNode testFrame rxAllRecessive).node.tec
          (sendFrame initNode testFrame rxAllRecessive).node.recCounter ∧
    (readFrameStep initNode testFrame false).node.state
      = classify (readFrameStep initNode testFrame false).node.tec
          (readFrameStep initNode testFrame false).node.recCounter :=
  ⟨C9_state_is_classification.1,
    C9_state_is_classification.2.1 initNode 125000 0 (by decide),
    C9_state_is_classification.2.2.1 initNode testFrame rxAllRecessive (by decide),
    C9_state_is_classification.2.2.2 initNode testFrame false (by decide)⟩

/-- C10: the described overwrite-on-`CAN_READ_ERROR` behaviour never
occurs: from a fresh node, on any finite sample stream every `readFrame`
call returns `CAN_READ_NO_MSG` (never `CAN_READ_ERROR`) and the caller's
frame is never modified, because the decode block sits behind the
unreachable EOF test. -/
theorem C10_no_error_return_no_frame_write (bits : List Bool) (f : CAN_Frame) :
    (runReader initNode f bits).frame = f ∧
    ((runReader initNode f bits).outs).map Prod.fst
      = List.replicate bits.length CAN_Read_Status.noMsg := by
  obtain ⟨ho, hf, _⟩ := runReader_noMsg bits initNode f (Or.inl rfl)
  exact ⟨hf, by rw [ho, List.map_replicate]⟩

end ESPCAN
